import Mathlib

/-!
Verification of the syPIV particle-image synthesis pipeline.

The development shallowly embeds the core modules of the repository:

* `create_particles.py` — particle seeding (`CreateParticles.compute_locations`),
  diameter populations (`Particle.compute_distribution`), laser-sheet bounds
  (`LaserSheet.compute_bounds`) and the two advection modes
  (`CreateParticles.compute_locations2` for the worker pool,
  `CreateParticles.compute_locations2_serial` for the sequential sweep);
* `ccd_projection.py` — the pinhole projection of particle clouds onto the CCD;
* `intensity.py` — the per-particle point-spread image (`Intensity.setup`) and
  the chunked / serial renderers (`Intensity.compute`, `Intensity.compute_serial`).

Scalar values held by the Python code are IEEE doubles; every finite double is a
rational number, so the seeding / advection / projection layers are modelled over
`ℚ` with exact arithmetic, and the points where numpy produces non-finite values
(division by zero) are modelled explicitly with `Option`.  The intensity renderer
involves `exp` and `erf`, so it is modelled over `ℝ`.

The external flow-field sampler (the `Search` / `Interpolation` / `Variables`
chain imported by `create_particles.py`, whose sources are not part of the core)
is abstracted as a function returning `Option` of a velocity, exactly as the
advector consumes it: any failure inside the per-particle `try` block is a `none`.
-/

namespace SyPIV

/-- A row of the `locations` array of `CreateParticles`: `[x, y, z, diameter]`. -/
structure Loc where
  x : ℚ
  y : ℚ
  z : ℚ
  dia : ℚ
deriving DecidableEq, Inhabited, Repr

/-- The flow-field sampler collaborator: cell search plus velocity interpolation
at a point.  `none` models any failure raised inside the per-particle `try`
block of `CreateParticles._multi_process` (cell not found, interpolation
failure, …). -/
abbrev Sampler := ℚ → ℚ → ℚ → Option (ℚ × ℚ × ℚ)

/-- `CreateParticles._multi_process`: for one particle, locate the cell,
interpolate the velocity and take the single Euler step
`new_loc = (x, y, z) + pulse_time * velocity`, carrying the diameter through;
on any exception the task fails (`none`) and its id is recorded by the caller's
bookkeeping. -/
def CreateParticles.multi_process (pulseTime : ℚ) (sampler : Sampler) (r : Loc) :
    Option Loc :=
  match sampler r.x r.y r.z with
  | some v => some ⟨r.x + pulseTime * v.1, r.y + pulseTime * v.2.1,
      r.z + pulseTime * v.2.2, r.dia⟩
  | none => none

/-- `np.delete(l, ids, axis=0)`: drop the rows whose index is listed in `ids`. -/
def deleteIds (l : List α) (ids : List ℕ) : List α :=
  (l.enum.filter (fun p => p.1 ∉ ids)).map Prod.snd

/-- The `_failed_ids` list accumulated by the sequential sweep: the indices of
the tasks whose result is `None`, in task order. -/
def failedIds (results : List (Option Loc)) : List ℕ :=
  (results.enum.filter (fun p => p.2 = none)).map Prod.fst

/-- `CreateParticles.compute_locations2_serial`: run `_multi_process` on every
row in order, appending each result to `locations2` and each failed task id to
the object's own `_failed_ids`; afterwards delete the failed ids from both
`locations` and `locations2`.  Returns the pair
(`locations` after deletion, `locations2` after deletion). -/
def CreateParticles.compute_locations2_serial (pulseTime : ℚ) (sampler : Sampler)
    (locations : List Loc) : List Loc × List (Option Loc) :=
  let results := locations.map (CreateParticles.multi_process pulseTime sampler)
  let failed := failedIds results
  (deleteIds locations failed, deleteIds results failed)

/-- `CreateParticles.compute_locations2` (worker-pool mode):
`pool.starmap(self._multi_process, …)` sends each worker a private copy of the
object, so the `self._failed_ids.append(task_id)` performed inside a worker
process mutates that copy only; the pool returns just the per-task return
values.  The parent's `_failed_ids` therefore still holds its `__init__` value
`[]` when the two `np.delete` calls run, so nothing is deleted and the `None`
rows of failed tasks remain in `locations2`. -/
def CreateParticles.compute_locations2 (pulseTime : ℚ) (sampler : Sampler)
    (locations : List Loc) : List Loc × List (Option Loc) :=
  let results := locations.map (CreateParticles.multi_process pulseTime sampler)
  (deleteIds locations [], deleteIds results [])

/-- A sampler that fails to locate a containing cell for every point
(`OutOfDomain` everywhere). -/
def failSampler : Sampler := fun _ _ _ => none

/-- A sampler that fails exactly on points with `x = 0` and otherwise returns
the constant velocity `(1, 2, 3)`. -/
def mixSampler : Sampler := fun x _ _ => if x = 0 then none else some (1, 2, 3)

/-- `LaserSheet.compute_bounds`: the illumination interval
`width = [position - thickness/2, position + thickness/2]`. -/
def LaserSheet.compute_bounds (position thickness : ℚ) : ℚ × ℚ :=
  (position - thickness / 2, position + thickness / 2)

/-- Python's `int(...)` applied to a float: truncation toward zero. -/
def pyInt (q : ℚ) : ℤ :=
  if 0 ≤ q then ⌊q⌋ else -⌊-q⌋

/-- `int(self.in_plane * self.particle.n_concentration * 0.01)`: the number of
in-plane particles computed by `CreateParticles.compute_locations`. -/
def CreateParticles.inPlaneCount (inPlane : ℚ) (n : ℕ) : ℕ :=
  (pyInt (inPlane * n * (1 / 100))).toNat

/-- One draw of `rng.uniform(low, high)`, modelled as `low + (high - low) * u`
where `u` is the generator's unit-interval sample for that index. -/
def uniformDraw (low high : ℚ) (u : ℕ → ℚ) (i : ℕ) : ℚ :=
  low + (high - low) * u i

/-- `CreateParticles.compute_locations`: seed `inPlaneCount` in-plane particles
(x, y uniform in `ia_bounds`, z fixed at the sheet position, diameters taken
from the head of `particle_field`), then the remaining particles off-plane
(z uniform in the sheet's `width` interval, diameters from the rest of
`particle_field`), concatenated in-plane first.  `iaBounds` is
`(x_min, x_max, y_min, y_max)`; `ux1 … uz` are the unit-interval samples the
generator produces for each uniform draw. -/
def CreateParticles.compute_locations (inPlane : ℚ) (n : ℕ)
    (iaBounds : ℚ × ℚ × ℚ × ℚ) (position : ℚ) (width : ℚ × ℚ)
    (particle_field : List ℚ) (ux1 uy1 ux2 uy2 uz : ℕ → ℚ) : List Loc :=
  let k := CreateParticles.inPlaneCount inPlane n
  ((List.range k).map (fun i =>
      ⟨uniformDraw iaBounds.1 iaBounds.2.1 ux1 i,
       uniformDraw iaBounds.2.2.1 iaBounds.2.2.2 uy1 i,
       position,
       particle_field.getD i 0⟩))
    ++ ((List.range (n - k)).map (fun i =>
      ⟨uniformDraw iaBounds.1 iaBounds.2.1 ux2 i,
       uniformDraw iaBounds.2.2.1 iaBounds.2.2.2 uy2 i,
       uniformDraw width.1 width.2 uz i,
       particle_field.getD (k + i) 0⟩))

/-- `Particle.compute_distribution`: when the configured kind is `"gaussian"`,
draw `n_concentration` normal samples (`draws`), clip them elementwise into
`[min_dia, max_dia]` and shuffle them (`shuffled` is the permutation the
generator applies); for any other kind the method falls through its single
`if` and returns with `particle_field` still unset, modelled as `none`. -/
def Particle.compute_distribution (distribution : String) (minDia maxDia : ℚ)
    (draws : List ℚ) (shuffled : List ℚ → List ℚ) : Option (List ℚ) :=
  if distribution = "gaussian" then
    some (shuffled (draws.map (fun v => min (max v minDia) maxDia)))
  else
    none

/-- numpy elementwise division, keeping track of finiteness: dividing by zero
yields a non-finite value (`inf`, `-inf` or `nan`), modelled as `none`. -/
def npDiv (a b : ℚ) : Option ℚ :=
  if b = 0 then none else some (a / b)

/-- One row of `CCDProjection.compute`:
`(x * d_ia / (z - d_ccd), y * d_ia / (z - d_ccd), diameter)`; the pixel
components are non-finite (`none`) when `z = d_ccd`. -/
def CCDProjection.projectRow (dIa dCcd : ℚ) (r : Loc) :
    Option ℚ × Option ℚ × ℚ :=
  (npDiv (r.x * dIa) (r.z - dCcd), npDiv (r.y * dIa) (r.z - dCcd), r.dia)

/-- `CCDProjection.compute`: the columnwise numpy assignments build, row by
row, the projected table of `particles.locations` (the first-exposure cloud). -/
def CCDProjection.compute (dIa dCcd : ℚ) (locations : List Loc) :
    List (Option ℚ × Option ℚ × ℚ) :=
  locations.map (CCDProjection.projectRow dIa dCcd)

/-- Modelled from the spec: the second-exposure projected table `projections2`.
The module that computes it (`sypivlib/sypiv/ccd_projection.py`, the
`CCDProjection` the GUI worker imports and whose `projections2` field
`sypiv_worker.py` and `test_image_gen.py` consume) is not under `src/`; the
spec requires the projection to be applied independently, with the same camera
model, to cloud₂ of the exposure pair. -/
def CCDProjection.compute2 (dIa dCcd : ℚ) (locations2 : List Loc) :
    List (Option ℚ × Option ℚ × ℚ) :=
  locations2.map (CCDProjection.projectRow dIa dCcd)

/-- The projected row as the spec states it: pixel coordinates
`x * d_ia / (z - d_ccd)` and `y * d_ia / (z - d_ccd)` (finite values), with
the diameter copied through unmodified. -/
def specProjectedRow (dIa dCcd : ℚ) (r : Loc) : Option ℚ × Option ℚ × ℚ :=
  (some (r.x * dIa / (r.z - dCcd)), some (r.y * dIa / (r.z - dCcd)), r.dia)

/-- The Gauss error function used by `scipy.special.erf`:
`erf x = 2/√π ∫₀ˣ exp(-t²) dt`. -/
noncomputable def erf (x : ℝ) : ℝ :=
  2 / Real.sqrt Real.pi * ∫ t in (0 : ℝ)..x, Real.exp (-t ^ 2)

/-- The fixed optics / camera / laser-sheet data consumed by `Intensity`:
resolution (`xres`, `yres`), point-spread widths (`sx`, `sy`), pixel frame
(`frx`, `fry`), shape factor `s`, efficiency `q`, and the laser sheet's
position and thickness read off `projection.particles.laser_sheet`. -/
structure IntensityCfg where
  xres : ℕ
  yres : ℕ
  sx : ℝ
  sy : ℝ
  frx : ℝ
  fry : ℝ
  s : ℝ
  q : ℝ
  lsPosition : ℝ
  lsThickness : ℝ

/-- The per-particle slice of the `cache` tuple:
`(dia_x, dia_y, xp, yp, z_physical)`. -/
structure IPart where
  diaX : ℝ
  diaY : ℝ
  xp : ℝ
  yp : ℝ
  zPhys : ℝ

/-- Element `i` of `np.linspace(a, b, n)`:
`a + i * (b - a) / (n - 1)` for `n ≥ 2`, and `a` for `n ≤ 1`. -/
noncomputable def linspaceVal (a b : ℝ) (n i : ℕ) : ℝ :=
  if n ≤ 1 then a else a + i * ((b - a) / ((n : ℝ) - 1))

/-- The x pixel coordinate of grid column `j`
(`x = np.linspace(-xres/2, xres/2, xres)` followed by `meshgrid`). -/
noncomputable def gridX (cfg : IntensityCfg) (px : ℕ × ℕ) : ℝ :=
  linspaceVal (-(cfg.xres : ℝ) / 2) ((cfg.xres : ℝ) / 2) cfg.xres px.2

/-- The y pixel coordinate of grid row `i`
(`y = np.linspace(-yres/2, yres/2, yres)` followed by `meshgrid`). -/
noncomputable def gridY (cfg : IntensityCfg) (px : ℕ × ℕ) : ℝ :=
  linspaceVal (-(cfg.yres : ℝ) / 2) ((cfg.yres : ℝ) / 2) cfg.yres px.1

/-- `Intensity.setup`: the image contributed by one particle, evaluated at the
pixel `px = (row, column)` of the meshgrid. -/
noncomputable def Intensity.setup (cfg : IntensityCfg) (p : IPart)
    (px : ℕ × ℕ) : ℝ :=
  cfg.q *
    Real.exp (-1 / Real.sqrt (2 * Real.pi) *
      |2 * (p.zPhys - cfg.lsPosition) ^ 2 / cfg.lsThickness ^ 2| ^ cfg.s) *
    (Real.pi / 8 * p.diaX * p.diaY * cfg.sx * cfg.sy *
      (erf ((gridX cfg px - p.xp + 0.5 * cfg.frx) / (cfg.sx * (2 : ℝ) ^ (0.5 : ℝ))) -
        erf ((gridX cfg px - p.xp - 0.5 * cfg.frx) / (cfg.sx * (2 : ℝ) ^ (0.5 : ℝ)))) *
      (erf ((gridY cfg px - p.yp + 0.5 * cfg.fry) / (cfg.sy * (2 : ℝ) ^ (0.5 : ℝ))) -
        erf ((gridY cfg px - p.yp - 0.5 * cfg.fry) / (cfg.sy * (2 : ℝ) ^ (0.5 : ℝ)))))

/-- The chunk decomposition performed by the while loop of
`Intensity.compute`: full chunks of `cs` particles while at least `cs`
particles remain, then one final (possibly empty) remainder batch. -/
def whileChunks (cs : ℕ) (l : List α) : List (List α) :=
  if h : 1 ≤ cs ∧ cs ≤ l.length then
    l.take cs :: whileChunks cs (l.drop cs)
  else
    [l]
termination_by l.length
decreasing_by simp only [List.length_drop]; omega

/-- The pixel grid of the rendered image. -/
def gridPixels (cfg : IntensityCfg) : Finset (ℕ × ℕ) :=
  Finset.range cfg.yres ×ˢ Finset.range cfg.xres

/-- `np.max` of a field over the pixel grid.  `np.max` raises on an empty
array, so the `else` branch is unreachable whenever both resolutions are
positive. -/
noncomputable def npMax (cfg : IntensityCfg) (f : ℕ × ℕ → ℝ) : ℝ :=
  if h : (gridPixels cfg).Nonempty then (gridPixels cfg).sup' h f else 0

/-- The final rescale of both renderers:
`if np.max(intensity) != 0: intensity = intensity / np.max(intensity) * 255`. -/
noncomputable def normalizeField (cfg : IntensityCfg) (f : ℕ × ℕ → ℝ) :
    ℕ × ℕ → ℝ :=
  if npMax cfg f ≠ 0 then fun px => f px / npMax cfg f * 255 else f

/-- `Intensity.compute_serial`: sum the per-particle images in order, divide
by the particle count and rescale.  With zero particles numpy's
`intensity / len(xp)` is `0/0` at every pixel, i.e. the all-NaN field; that
(returned without an exception) is modelled as `none`. -/
noncomputable def Intensity.compute_serial (cfg : IntensityCfg)
    (ps : List IPart) : Option (ℕ × ℕ → ℝ) :=
  if ps.length = 0 then none
  else
    some (normalizeField cfg (fun px =>
      (ps.map (fun p => Intensity.setup cfg p px)).sum / (ps.length : ℝ)))

/-- `Intensity.compute`: dispatch the particles in chunks of `chunksize` to a
pool of `nWorkers = max(1, cpu_count() - 1)` workers, add the batch sums, then
divide by the particle count and rescale exactly as the serial mode does.

With zero particles the while loop never runs and the final `starmap` over an
empty iterable returns `[]`, so the result is the same `0/0` all-NaN field as
in `compute_serial` (`Except.ok none`).

Each full chunk (the while loop runs whenever `chunksize ≤ len(xp)`) is
dispatched with `pool.starmap(…, chunksize=n_particles//n)` where
`n_particles` is the render chunk length (always equal to `chunksize` inside
the loop) and `n = nWorkers`.  When that integer division is zero — render
chunk smaller than the worker count — CPython's `Pool._map_async` builds a
`MapResult` with `chunksize <= 0` which completes immediately with
`[None] * n_particles` without ever calling `setup`, and the following
`intensity += np.sum(itemp, axis=0)` raises `TypeError` on the `None`
entries: the renderer crashes, modelled as `Except.error "TypeError"`.
The final partial batch passes no pool chunksize and is safe.

(`chunksize = 0` on a non-empty list makes the Python while loop spin
forever; the model is only meaningful for `chunksize ≥ 1`, which every
theorem below assumes.) -/
noncomputable def Intensity.compute (cfg : IntensityCfg) (nWorkers chunksize : ℕ)
    (ps : List IPart) : Except String (Option (ℕ × ℕ → ℝ)) :=
  if ps.length = 0 then Except.ok none
  else if chunksize ≤ ps.length ∧ chunksize / nWorkers = 0 then
    Except.error "TypeError"
  else
    Except.ok (some (normalizeField cfg (fun px =>
      ((whileChunks chunksize ps).map
        (fun c => (c.map (fun p => Intensity.setup cfg p px)).sum)).sum /
        (ps.length : ℝ))))

/-- The per-particle contribution exactly as the claim states it:
`q * exp(-(1/sqrt(2π)) * |2*(z − position)² / thickness²|^s) * (π/8) * dia_x *
dia_y * sx * sy * [erf((x − xp + frx/2)/(sx·√2)) − erf((x − xp − frx/2)/(sx·√2))]
* [erf((y − yp + fry/2)/(sy·√2)) − erf((y − yp − fry/2)/(sy·√2))]`. -/
noncomputable def specContribution (cfg : IntensityCfg) (p : IPart)
    (px : ℕ × ℕ) : ℝ :=
  cfg.q *
    Real.exp (-(1 / Real.sqrt (2 * Real.pi)) *
      |2 * (p.zPhys - cfg.lsPosition) ^ 2 / cfg.lsThickness ^ 2| ^ cfg.s) *
    (Real.pi / 8) * p.diaX * p.diaY * cfg.sx * cfg.sy *
    (erf ((gridX cfg px - p.xp + cfg.frx / 2) / (cfg.sx * Real.sqrt 2)) -
      erf ((gridX cfg px - p.xp - cfg.frx / 2) / (cfg.sx * Real.sqrt 2))) *
    (erf ((gridY cfg px - p.yp + cfg.fry / 2) / (cfg.sy * Real.sqrt 2)) -
      erf ((gridY cfg px - p.yp - cfg.fry / 2) / (cfg.sy * Real.sqrt 2)))

/-- The final rescale as the claim states it: skipped exactly when the
maximum is zero, otherwise linear with the maximum mapped to 255. -/
noncomputable def specRescale (cfg : IntensityCfg) (f : ℕ × ℕ → ℝ) :
    ℕ × ℕ → ℝ :=
  if npMax cfg f = 0 then f else fun px => f px * (255 / npMax cfg f)

/-- A concrete optics configuration used to instantiate the theorems. -/
noncomputable def cfgA : IntensityCfg :=
  ⟨8, 8, 2, 2, 1, 1, 2, 1, 0, 1⟩

/-- A concrete particle used to instantiate the theorems. -/
noncomputable def partA : IPart :=
  ⟨3, 3, 0, 0, 0⟩

end SyPIV

namespace SyPIV

/-- C1: advecting a cloud through the worker-pool mode keeps a particle whose
sampler lookup fails in `locations` and leaves a `None` row for it in
`locations2`: the failed index set recorded inside the worker processes never
reaches the parent, so the surviving row violates the Euler-step / diameter
relation the claim states. -/
theorem compute_locations2_keeps_failed_row :
    CreateParticles.compute_locations2 1 failSampler [⟨1, 2, 3, 4⟩] =
      ([⟨1, 2, 3, 4⟩], [none]) := by decide

/-- C2: the worker-pool mode and the sequential mode disagree as soon as one
particle fails: on a two-particle cloud whose first particle fails, the serial
sweep drops the failed row from both clouds while the pool mode keeps it. -/
theorem compute_locations2_parallel_serial_differ :
    CreateParticles.compute_locations2 1 mixSampler [⟨0, 0, 0, 5⟩, ⟨1, 1, 1, 6⟩] ≠
      CreateParticles.compute_locations2_serial 1 mixSampler
        [⟨0, 0, 0, 5⟩, ⟨1, 1, 1, 6⟩] := by decide

/-- The while loop's chunks reassemble to the original particle list. -/
theorem whileChunks_flatten (cs : ℕ) (l : List α) :
    (whileChunks cs l).flatten = l := by
  unfold whileChunks
  split
  next h =>
    have ih := whileChunks_flatten cs (l.drop cs)
    simp [ih]
  next h => simp
termination_by l.length
decreasing_by simp only [List.length_drop]; omega

/-- Summing the per-chunk sums equals summing over the whole particle list. -/
theorem whileChunks_map_sum (cs : ℕ) (l : List α) (g : α → ℝ) :
    ((whileChunks cs l).map (fun c => (c.map g).sum)).sum = (l.map g).sum := by
  have h1 : (whileChunks cs l).map (fun c => (c.map g).sum)
      = ((whileChunks cs l).map (List.map g)).map List.sum := by
    simp [List.map_map, Function.comp]
  rw [h1, ← List.sum_flatten, ← List.map_flatten, whileChunks_flatten]

/-- The code's per-particle image agrees with the formula in the claim:
the two differ only in `2 ** 0.5` versus `√2`, `0.5 * fr` versus `fr / 2`,
`-1/√(2π)` versus `-(1/√(2π))` and the association of the product. -/
theorem setup_eq_specContribution (cfg : IntensityCfg) (p : IPart)
    (px : ℕ × ℕ) : Intensity.setup cfg p px = specContribution cfg p px := by
  have h2 : ((2 : ℝ) ^ (0.5 : ℝ)) = Real.sqrt 2 := by
    rw [Real.sqrt_eq_rpow]; norm_num
  unfold Intensity.setup specContribution
  rw [h2]
  ring_nf

/-- The code's rescale step agrees with the rescale as the claim states it. -/
theorem normalizeField_eq_specRescale (cfg : IntensityCfg) (f : ℕ × ℕ → ℝ) :
    normalizeField cfg f = specRescale cfg f := by
  unfold normalizeField specRescale
  by_cases h : npMax cfg f = 0
  · simp [h]
  · rw [if_pos h, if_neg h]
    funext px
    ring

/-- C7: with a sampler that returns `OutOfDomain` for every point, the serial
advection sweep returns an exposure pair of length 0, but the worker-pool mode
(the mode the claim cites) returns both clouds at full input length, with
`None` rows in `locations2`. -/
theorem compute_locations2_out_of_domain_lengths :
    (CreateParticles.compute_locations2_serial 1 failSampler
        [⟨1, 0, 0, 1⟩, ⟨2, 0, 0, 2⟩]).1 = [] ∧
    (CreateParticles.compute_locations2_serial 1 failSampler
        [⟨1, 0, 0, 1⟩, ⟨2, 0, 0, 2⟩]).2 = [] ∧
    (CreateParticles.compute_locations2 1 failSampler
        [⟨1, 0, 0, 1⟩, ⟨2, 0, 0, 2⟩]).1.length = 2 ∧
    (CreateParticles.compute_locations2 1 failSampler
        [⟨1, 0, 0, 1⟩, ⟨2, 0, 0, 2⟩]).2 = [none, none] := by decide

/-- When no full chunk hands the pool a zero `chunksize=n_particles//n`
(either every particle fits in one final batch, or the render chunk is at
least the worker count), the chunked renderer returns exactly the serial
field: the while loop's chunks flatten back to the particle list and the
real-number sums agree. -/
theorem intensity_compute_ok_eq_serial (cfg : IntensityCfg) (nWorkers cs : ℕ)
    (ps : List IPart) (h1 : ps ≠ []) (h2 : 1 ≤ cs)
    (h3 : ps.length < cs ∨ 1 ≤ cs / nWorkers) :
    Intensity.compute cfg nWorkers cs ps =
      Except.ok (Intensity.compute_serial cfg ps) := by
  have hn : ¬ ps.length = 0 := by simpa using h1
  have hcrash : ¬ (cs ≤ ps.length ∧ cs / nWorkers = 0) := by omega
  unfold Intensity.compute Intensity.compute_serial
  rw [if_neg hn, if_neg hcrash, if_neg hn]
  have hF : (fun px => ((whileChunks cs ps).map
        (fun c => (c.map (fun p => Intensity.setup cfg p px)).sum)).sum /
        (ps.length : ℝ))
      = fun px => (ps.map (fun p => Intensity.setup cfg p px)).sum /
        (ps.length : ℝ) := by
    funext px
    rw [whileChunks_map_sum]
  rw [hF]

/-- C3: rendering two particles with chunk size 1 on a pool of 2 workers
(`cpu_count() = 3`) passes `chunksize = 1 // 2 = 0` to `pool.starmap`, which
returns `[None]` without calling `setup`, and the accumulation raises
`TypeError` — the chunked renderer crashes instead of returning the serial
field.  The same input at chunk size 2 (pool chunksize `2 // 2 = 1`) does
return exactly the serial field, so the claimed equivalence of the three
strategies fails precisely at the small chunk sizes the claim enumerates. -/
theorem intensity_compute_chunk_crash :
    Intensity.compute cfgA 2 1 [partA, partA] = Except.error "TypeError" ∧
      Intensity.compute cfgA 2 2 [partA, partA] =
        Except.ok (Intensity.compute_serial cfgA [partA, partA]) := by
  constructor
  · rfl
  · exact intensity_compute_ok_eq_serial cfgA 2 2 [partA, partA]
      (by simp) (by norm_num) (by norm_num)

/-- C4: the serial renderer returns exactly the field the claim describes:
the sum over particles of the claim's per-particle formula, divided by the
particle count, then rescaled so the maximum maps to 255, the rescale skipped
exactly when the maximum is zero. -/
theorem intensity_serial_formula (cfg : IntensityCfg) (ps : List IPart)
    (h : 1 ≤ ps.length) :
    Intensity.compute_serial cfg ps =
      some (specRescale cfg (fun px =>
        (ps.map (fun p => specContribution cfg p px)).sum / (ps.length : ℝ))) := by
  have hn : ¬ ps.length = 0 := by omega
  unfold Intensity.compute_serial
  rw [if_neg hn]
  have hF : (fun px => (ps.map (fun p => Intensity.setup cfg p px)).sum /
        (ps.length : ℝ))
      = fun px => (ps.map (fun p => specContribution cfg p px)).sum /
        (ps.length : ℝ) := by
    simp only [setup_eq_specContribution]
  rw [hF, normalizeField_eq_specRescale]

/-- Witness for C4 at a concrete configuration and one-particle list. -/
theorem intensity_serial_formula_witness :
    Intensity.compute_serial cfgA [partA] =
      some (specRescale cfgA (fun px =>
        ([partA].map (fun p => specContribution cfgA p px)).sum /
          (([partA] : List IPart).length : ℝ))) :=
  intensity_serial_formula cfgA [partA] (by decide)

/-- C5 counterexample: rendering zero particles does not return the all-zero
field; the unguarded `intensity / len(xp)` is `0/0` at every pixel, so the
renderer returns the all-NaN field (`none`), not `some` of the zero field. -/
theorem intensity_empty_not_zero_field :
    Intensity.compute_serial cfgA [] = none ∧
      Intensity.compute_serial cfgA [] ≠ some (fun _ => (0 : ℝ)) := by
  constructor
  · rfl
  · intro hcontra
    exact Option.noConfusion hcontra

/-- C5 amended: rendering zero particles raises no exception (the while loop
never runs and the empty final `starmap` is benign), but the division by the
particle count is unguarded: both renderers return the all-NaN field
(`none`) rather than an all-zero field, for any worker count and chunk
size. -/
theorem intensity_empty_is_nan (cfg : IntensityCfg) (nWorkers cs : ℕ)
    (h : 1 ≤ cs) :
    Intensity.compute_serial cfg [] = none ∧
      Intensity.compute cfg nWorkers cs [] = Except.ok none := by
  constructor <;> rfl

/-- Witness for the amended C5 at a concrete configuration, worker count and
chunk size. -/
theorem intensity_empty_is_nan_witness :
    Intensity.compute_serial cfgA [] = none ∧
      Intensity.compute cfgA 2 2 [] = Except.ok none :=
  intensity_empty_is_nan cfgA 2 2 (by decide)

/-- C6: on clouds whose particles all satisfy `z ≠ d_ccd`, the projection of
the first-exposure cloud and the (spec-modelled) projection of the
second-exposure cloud are exactly the rowwise maps of the claim's formula
`(x * d_ia / (z - d_ccd), y * d_ia / (z - d_ccd), diameter)` — the diameter
copied through unmodified and row `i` of each table derived from row `i` of
the corresponding cloud. -/
theorem ccd_projection_pair_rows (dIa dCcd : ℚ) (c1 c2 : List Loc)
    (h1 : ∀ r ∈ c1, r.z ≠ dCcd) (h2 : ∀ r ∈ c2, r.z ≠ dCcd) :
    CCDProjection.compute dIa dCcd c1 = c1.map (specProjectedRow dIa dCcd) ∧
      CCDProjection.compute2 dIa dCcd c2 = c2.map (specProjectedRow dIa dCcd) := by
  constructor
  · unfold CCDProjection.compute
    apply List.map_congr_left
    intro r hr
    unfold CCDProjection.projectRow specProjectedRow npDiv
    rw [if_neg (sub_ne_zero.mpr (h1 r hr)), if_neg (sub_ne_zero.mpr (h1 r hr))]
  · unfold CCDProjection.compute2
    apply List.map_congr_left
    intro r hr
    unfold CCDProjection.projectRow specProjectedRow npDiv
    rw [if_neg (sub_ne_zero.mpr (h2 r hr)), if_neg (sub_ne_zero.mpr (h2 r hr))]

/-- Witness for C6 on concrete one-particle clouds. -/
theorem ccd_projection_pair_rows_witness :
    CCDProjection.compute 2 1 [⟨1, 2, 3, 4⟩] =
        [(⟨1, 2, 3, 4⟩ : Loc)].map (specProjectedRow 2 1) ∧
      CCDProjection.compute2 2 1 [⟨5, 6, 7, 8⟩] =
        [(⟨5, 6, 7, 8⟩ : Loc)].map (specProjectedRow 2 1) :=
  ccd_projection_pair_rows 2 1 [⟨1, 2, 3, 4⟩] [⟨5, 6, 7, 8⟩]
    (by decide) (by decide)

/-- C9 counterexample: a particle with `z = d_ccd` is projected to a row with
non-finite pixel components (`none`, numpy's silent `inf`/`nan` from division
by zero); no error of any kind is raised — `CCDProjection.compute` is total
and simply returns the table. -/
theorem ccd_projection_degenerate_value :
    CCDProjection.compute 2 5 [⟨3, 4, 5, 7⟩] = [(none, none, 7)] := by
  norm_num [CCDProjection.compute, CCDProjection.projectRow, npDiv]

/-- C9 amended: for any particle with `z = d_ccd` the projected row is
`(non-finite, non-finite, diameter)`: the division by zero propagates
silently instead of failing with a `DegenerateProjection` error. -/
theorem ccd_projection_degenerate_rows (dIa dCcd : ℚ) (r : Loc)
    (h : r.z = dCcd) :
    CCDProjection.projectRow dIa dCcd r = (none, none, r.dia) := by
  unfold CCDProjection.projectRow npDiv
  rw [if_pos (by rw [h, sub_self]), if_pos (by rw [h, sub_self])]

/-- Witness for the amended C9 at a concrete degenerate particle. -/
theorem ccd_projection_degenerate_rows_witness :
    CCDProjection.projectRow 3 7 ⟨1, 2, 7, 9⟩ = (none, none, 9) :=
  ccd_projection_degenerate_rows 3 7 ⟨1, 2, 7, 9⟩ (by decide)

/-- C10 counterexample: requesting a diameter population for a non-gaussian
distribution kind returns silently with no population (`particle_field` is
left `None`); no `UnsupportedDistribution` error is raised —
`compute_distribution` falls through its single `if`. -/
theorem compute_distribution_uniform_value :
    Particle.compute_distribution "uniform" 0 1 [2] id = none := by decide

/-- C10 amended: for every distribution kind other than `"gaussian"`,
`compute_distribution` silently returns with no population; it neither raises
an error nor defaults to the gaussian branch. -/
theorem compute_distribution_non_gaussian_none (distribution : String)
    (minDia maxDia : ℚ) (draws : List ℚ) (shuffled : List ℚ → List ℚ)
    (h : distribution ≠ "gaussian") :
    Particle.compute_distribution distribution minDia maxDia draws shuffled =
      none := by
  unfold Particle.compute_distribution
  rw [if_neg h]

/-- Witness for the amended C10 at a concrete non-gaussian request. -/
theorem compute_distribution_non_gaussian_none_witness :
    Particle.compute_distribution "linear" 0 1 [] id = none :=
  compute_distribution_non_gaussian_none "linear" 0 1 [] id (by decide)

/-- C8: seeding with in-plane fraction `inPlane` and count `n` places exactly
`⌊inPlane/100 * n⌋` in-plane particles first (each with `z` exactly the laser
sheet position), gives every particle its diameter positionally from the
diameter samples, and places the remaining particles after them with `z`
inside the illumination interval
`[position - thickness/2, position + thickness/2]` computed by
`LaserSheet.compute_bounds`. -/
theorem compute_locations_inplane_spec (inPlane : ℚ) (n : ℕ)
    (iaBounds : ℚ × ℚ × ℚ × ℚ) (position thickness : ℚ)
    (particle_field : List ℚ) (ux1 uy1 ux2 uy2 uz : ℕ → ℚ)
    (locs : List Loc) (k : ℕ)
    (hlocs : locs = CreateParticles.compute_locations inPlane n iaBounds
      position (LaserSheet.compute_bounds position thickness) particle_field
      ux1 uy1 ux2 uy2 uz)
    (hk : k = CreateParticles.inPlaneCount inPlane n)
    (hf0 : 0 ≤ inPlane) (hf1 : inPlane ≤ 100) (ht : 0 ≤ thickness)
    (hu : ∀ i, 0 ≤ uz i ∧ uz i ≤ 1) :
    (k : ℤ) = ⌊inPlane / 100 * (n : ℚ)⌋ ∧
    locs.length = n ∧
    (∀ i, i < k → (locs.getD i default).z = position) ∧
    (∀ i, i < n → (locs.getD i default).dia = particle_field.getD i 0) ∧
    (∀ i, k ≤ i → i < n →
      position - thickness / 2 ≤ (locs.getD i default).z ∧
        (locs.getD i default).z ≤ position + thickness / 2) := by
  subst hlocs hk
  have hq : 0 ≤ inPlane * n * (1 / 100) := by positivity
  have hkz : (CreateParticles.inPlaneCount inPlane n : ℤ)
      = ⌊inPlane / 100 * (n : ℚ)⌋ := by
    unfold CreateParticles.inPlaneCount pyInt
    rw [if_pos hq, Int.toNat_of_nonneg (Int.floor_nonneg.mpr hq)]
    congr 1
    ring
  have hkn : CreateParticles.inPlaneCount inPlane n ≤ n := by
    have h1 : inPlane / 100 * (n : ℚ) ≤ (n : ℚ) := by
      have h100 : inPlane / 100 ≤ 1 := by
        rw [div_le_one (by norm_num)]
        exact hf1
      nlinarith [Nat.cast_nonneg (α := ℚ) n]
    have h2 : (CreateParticles.inPlaneCount inPlane n : ℤ) ≤ (n : ℤ) := by
      rw [hkz]
      calc ⌊inPlane / 100 * (n : ℚ)⌋ ≤ ⌊(n : ℚ)⌋ := Int.floor_le_floor h1
        _ = n := Int.floor_natCast n
    exact_mod_cast h2
  refine ⟨hkz, ?_, ?_, ?_, ?_⟩
  · simp only [CreateParticles.compute_locations, List.length_append,
      List.length_map, List.length_range]
    omega
  · intro i hik
    simp only [CreateParticles.compute_locations]
    rw [List.getD_append _ _ _ _ (by
      simpa only [List.length_map, List.length_range] using hik)]
    rw [List.getD_eq_getElem?_getD, List.getElem?_map]
    simp [List.getElem?_range, hik]
  · intro i hin
    simp only [CreateParticles.compute_locations]
    by_cases hik : i < CreateParticles.inPlaneCount inPlane n
    · rw [List.getD_append _ _ _ _ (by
        simpa only [List.length_map, List.length_range] using hik)]
      rw [List.getD_eq_getElem?_getD, List.getElem?_map]
      simp [List.getElem?_range, hik]
    · push_neg at hik
      rw [List.getD_append_right _ _ _ _ (by
        simpa only [List.length_map, List.length_range] using hik)]
      rw [List.getD_eq_getElem?_getD, List.getElem?_map]
      simp only [List.length_map, List.length_range]
      have hlt : i - CreateParticles.inPlaneCount inPlane n
          < n - CreateParticles.inPlaneCount inPlane n := by omega
      rw [List.getElem?_range hlt]
      simp only [Option.map_some', Option.getD_some]
      have : CreateParticles.inPlaneCount inPlane n
          + (i - CreateParticles.inPlaneCount inPlane n) = i := by omega
      rw [this]
  · intro i hki hin
    simp only [CreateParticles.compute_locations]
    rw [List.getD_append_right _ _ _ _ (by
      simpa only [List.length_map, List.length_range] using hki)]
    rw [List.getD_eq_getElem?_getD, List.getElem?_map]
    simp only [List.length_map, List.length_range]
    have hlt : i - CreateParticles.inPlaneCount inPlane n
        < n - CreateParticles.inPlaneCount inPlane n := by omega
    rw [List.getElem?_range hlt]
    simp only [Option.map_some', Option.getD_some]
    unfold uniformDraw LaserSheet.compute_bounds
    obtain ⟨hu0, hu1⟩ := hu (i - CreateParticles.inPlaneCount inPlane n)
    constructor
    · nlinarith
    · nlinarith

/-- Witness for C8: fraction 50, four particles, diameters `[1, 2, 3, 4]`,
sheet at `z = 10` with thickness 2, all unit samples 0; the seeded cloud is
`[(0,0,10,1), (0,0,10,2), (0,0,9,3), (0,0,9,4)]`. -/
theorem compute_locations_inplane_spec_witness :
    (CreateParticles.compute_locations 50 4 (0, 1, 0, 1) 10
        (LaserSheet.compute_bounds 10 2) [1, 2, 3, 4]
        (fun _ => 0) (fun _ => 0) (fun _ => 0) (fun _ => 0) (fun _ => 0)).length = 4 ∧
      ((CreateParticles.compute_locations 50 4 (0, 1, 0, 1) 10
        (LaserSheet.compute_bounds 10 2) [1, 2, 3, 4]
        (fun _ => 0) (fun _ => 0) (fun _ => 0) (fun _ => 0) (fun _ => 0)).getD 0
        default).z = 10 := by
  have h := compute_locations_inplane_spec 50 4 (0, 1, 0, 1) 10 2 [1, 2, 3, 4]
    (fun _ => 0) (fun _ => 0) (fun _ => 0) (fun _ => 0) (fun _ => 0)
    _ _ rfl rfl (by norm_num) (by norm_num) (by norm_num)
    (fun i => ⟨le_rfl, by norm_num⟩)
  refine ⟨h.2.1, h.2.2.1 0 ?_⟩
  norm_num [CreateParticles.inPlaneCount, pyInt, Int.toNat_ofNat]

end SyPIV



